import Mathlib

/-!
Verification of the Driver Status service (src/main.py): a shallow embedding
of the status-derivation engine, the change-notification dispatcher, the
subscription registry pruning, the destination resolver, the route-provider
fallback chain and the geofence gate, together with theorems settling the
frozen claims C1 to C10.

Modelling conventions:
* Python dict-shaped movement records are association lists over `PyVal`
  (None / bool / str); JSON numbers reach the modelled code only through
  `str(...)` conversions, so they are represented by their decimal strings.
* `datetime.now()` is an explicit `DateTime` argument.
* Network calls (routing providers, web push) are oracle parameters giving
  the outcome the call would have produced; float transcendentals used by
  the haversine formula are an oracle structure of rational functions.
* String operations are implemented on the character lists underlying
  `String`, matching Python code-point semantics for the ASCII inputs the
  claims exercise.
-/

/-- Model of the loosely typed Python values that reach the engine:
`None`, booleans and strings. -/
inductive PyVal where
  | pnone : PyVal
  | pbool : Bool → PyVal
  | pstr : String → PyVal
deriving DecidableEq, Repr

/-- A movement record: a Python dict from field name to value. -/
abbrev Rec := List (String × PyVal)

/-- `m.get(k, d)` on a dict modelled as an association list. -/
def rget (m : Rec) (k : String) (d : PyVal) : PyVal :=
  (m.lookup k).getD d

/-- Python `str(v)`. -/
def pyToStr : PyVal → String
  | .pnone => "None"
  | .pbool true => "True"
  | .pbool false => "False"
  | .pstr s => s

/-- Python `str(v or "")`: falsy values (None, False, empty string) become
the empty string, `True` becomes `"True"`. -/
def pyOrEmptyStr : PyVal → String
  | .pnone => ""
  | .pbool true => "True"
  | .pbool false => ""
  | .pstr s => s

/-- Python `str.strip()` on the underlying character list. -/
def pyStripChars (l : List Char) : List Char :=
  ((l.dropWhile Char.isWhitespace).reverse.dropWhile Char.isWhitespace).reverse

/-- Python `s.strip()`. -/
def pyStrip (s : String) : String := ⟨pyStripChars s.data⟩

/-- Python `s.upper()` (ASCII). -/
def pyUpper (s : String) : String := ⟨s.data.map Char.toUpper⟩

/-- Python `s.lower()` (ASCII). -/
def pyLower (s : String) : String := ⟨s.data.map Char.toLower⟩

/-- Python `c in s` for a single character. -/
def pyContains (s : String) (c : Char) : Bool := s.data.contains c

/-- Python `s.startswith(p)`. -/
def pyStartsWith (s p : String) : Bool := p.data.isPrefixOf s.data

/-- Python `s.endswith(p)`. -/
def pyEndsWith (s p : String) : Bool := p.data.isSuffixOf s.data

/-- Python `s[n:]`. -/
def pyDropLeft (s : String) (n : Nat) : String := ⟨s.data.drop n⟩

/-- Python `s[:-n]` for `n ≤ len(s)`. -/
def pyDropRight (s : String) (n : Nat) : String := ⟨s.data.take (s.data.length - n)⟩

/-- Python `s[:n]`. -/
def pyTake (s : String) (n : Nat) : String := ⟨s.data.take n⟩

/-- Remove every occurrence of the characters in `cs` (Python
`s.replace(c, "")` chained over `cs`). -/
def pyRemoveChars (s : String) (cs : List Char) : String :=
  ⟨s.data.filter (fun c => !cs.contains c)⟩

/-- Replace each character in `cs` by a space (Python `s.replace(c, " ")`). -/
def pyCharsToSpace (s : String) (cs : List Char) : String :=
  ⟨s.data.map (fun c => if cs.contains c then ' ' else c)⟩

/-- Helper for `pySplitWs`: accumulate the current word (reversed). -/
def splitWsAux : List Char → List Char → List String
  | [], cur => if cur.isEmpty then [] else [⟨cur.reverse⟩]
  | c :: t, cur =>
    if c.isWhitespace then
      if cur.isEmpty then splitWsAux t [] else ⟨cur.reverse⟩ :: splitWsAux t []
    else splitWsAux t (c :: cur)

/-- Python `s.split()`: split on whitespace runs, dropping empty pieces. -/
def pySplitWs (s : String) : List String := splitWsAux s.data []

/-- `normalize_plate` from the source: uppercase, strip, remove spaces and
hyphens.  (`src/main.py` lines 196-199.) -/
def normalize_plate (value : String) : String :=
  pyRemoveChars (pyStrip (pyUpper value)) [' ', '-']

/-- `normalize_plate(m.get("license_plate", ""))` applied to a loosely typed
value: `None` behaves as `""`; a boolean makes the Python call raise, which
every caller converts to an empty plate (the status engine catches it, the
dispatcher loops skip the record via their enclosing handler). -/
def normalizePlateVal : PyVal → String
  | .pnone => ""
  | .pbool _ => ""
  | .pstr s => normalize_plate s

/-- `_norm_code` from the source on a string argument: strip, uppercase,
remove spaces and hyphens.  (`src/main.py` lines 202-205.) -/
def _norm_code (s : String) : String :=
  pyRemoveChars (pyUpper (pyStrip s)) [' ', '-']

/-- `_has` from the source: `str(v or "").strip()` is non-empty and its
lowercase form is not one of the textual NaN markers.
(`src/main.py` lines 301-303.) -/
def _has (v : PyVal) : Bool :=
  let s := pyStrip (pyOrEmptyStr v)
  !s.isEmpty && !(["nan", "none", "nat"].contains (pyLower s))

/-- `_clean_location_value` from the source: strip; empty or the literal
placeholder `"wait"` (case-insensitive via `.lower()`) becomes empty.
(`src/main.py` lines 306-312.) -/
def _clean_location_value (v : PyVal) : String :=
  let s := pyStrip (pyOrEmptyStr v)
  if s.isEmpty then ""
  else if pyLower s = "wait" then ""
  else s

/-! ## Calendar model (`datetime`) -/

/-- A `datetime.datetime` value at second granularity (the parsed inputs the
engine handles carry no sub-second part). -/
structure DateTime where
  year : Int
  month : Nat
  day : Nat
  hour : Nat
  minute : Nat
  second : Nat
deriving DecidableEq, Repr

/-- Days since 1970-01-01 of a civil date (standard era-based civil-calendar
conversion, the arithmetic behind `datetime` subtraction). -/
def daysFromCivil (y : Int) (m d : Nat) : Int :=
  let y1 : Int := if m ≤ 2 then y - 1 else y
  let era : Int := (if 0 ≤ y1 then y1 else y1 - 399) / 400
  let yoe : Int := y1 - era * 400
  let mp : Int := if 2 < m then (m : Int) - 3 else (m : Int) + 9
  let doy : Int := (153 * mp + 2) / 5 + (d : Int) - 1
  let doe : Int := yoe * 365 + yoe / 4 - yoe / 100 + doy
  era * 146097 + doe - 719468

/-- The civil date of a day count since 1970-01-01 (inverse of
`daysFromCivil`). -/
def civilFromDays (z0 : Int) : Int × Nat × Nat :=
  let z := z0 + 719468
  let era : Int := (if 0 ≤ z then z else z - 146096) / 146097
  let doe : Int := z - era * 146097
  let yoe : Int := (doe - doe / 1460 + doe / 36524 - doe / 146096) / 365
  let y : Int := yoe + era * 400
  let doy : Int := doe - (365 * yoe + yoe / 4 - yoe / 100)
  let mp : Int := (5 * doy + 2) / 153
  let d : Int := doy - (153 * mp + 2) / 5 + 1
  let m : Int := if mp < 10 then mp + 3 else mp - 9
  ((if m ≤ 2 then y + 1 else y), m.toNat, d.toNat)

/-- Seconds since the 1970 epoch of a `DateTime`. -/
def DateTime.toSecs (dt : DateTime) : Int :=
  daysFromCivil dt.year dt.month dt.day * 86400
    + ((dt.hour * 3600 + dt.minute * 60 + dt.second : Nat) : Int)

/-- The `DateTime` of an epoch-second count. -/
def DateTime.fromSecs (secs : Int) : DateTime :=
  let days := Int.fdiv secs 86400
  let rem := (secs - days * 86400).toNat
  let c := civilFromDays days
  ⟨c.1, c.2.1, c.2.2, rem / 3600, rem % 3600 / 60, rem % 60⟩

/-- `dt - timedelta(minutes=k)`. -/
def DateTime.subMinutes (dt : DateTime) (k : Nat) : DateTime :=
  .fromSecs (dt.toSecs - (k : Int) * 60)

/-- Gregorian leap-year test. -/
def isLeap (y : Int) : Bool := y % 4 == 0 && (y % 100 != 0 || y % 400 == 0)

/-- Days in a month (0 for an invalid month number). -/
def daysInMonth (y : Int) (m : Nat) : Nat :=
  if m = 2 then (if isLeap y then 29 else 28)
  else if [1, 3, 5, 7, 8, 10, 12].contains m then 31
  else if [4, 6, 9, 11].contains m then 30
  else 0

/-- Decimal digit value of a character, if it is a digit. -/
def digitVal (c : Char) : Nat := c.toNat - 48

/-- Parse `HH:MM` or `HH:MM:SS` with range checks (the time tail accepted by
`datetime.fromisoformat`). -/
def parseIsoTime : List Char → Option (Nat × Nat × Nat)
  | [h1, h2, ':', n1, n2] =>
    if h1.isDigit && h2.isDigit && n1.isDigit && n2.isDigit then
      let h := digitVal h1 * 10 + digitVal h2
      let n := digitVal n1 * 10 + digitVal n2
      if h ≤ 23 && n ≤ 59 then some (h, n, 0) else none
    else none
  | [h1, h2, ':', n1, n2, ':', s1, s2] =>
    if h1.isDigit && h2.isDigit && n1.isDigit && n2.isDigit && s1.isDigit && s2.isDigit then
      let h := digitVal h1 * 10 + digitVal h2
      let n := digitVal n1 * 10 + digitVal n2
      let sec := digitVal s1 * 10 + digitVal s2
      if h ≤ 23 && n ≤ 59 && sec ≤ 59 then some (h, n, sec) else none
    else none
  | _ => none

/-- Parse the `datetime.fromisoformat` core forms `YYYY-MM-DD`,
`YYYY-MM-DD HH:MM[:SS]` and `YYYY-MM-DDTHH:MM[:SS]` with range checks.
Fractional seconds and timezone offsets are outside the modelled subset and
yield `none`. -/
def parseIsoChars : List Char → Option DateTime
  | y1 :: y2 :: y3 :: y4 :: '-' :: m1 :: m2 :: '-' :: d1 :: d2 :: rest =>
    if y1.isDigit && y2.isDigit && y3.isDigit && y4.isDigit &&
       m1.isDigit && m2.isDigit && d1.isDigit && d2.isDigit then
      let y : Int := (digitVal y1 * 1000 + digitVal y2 * 100 + digitVal y3 * 10 + digitVal y4 : Nat)
      let mo := digitVal m1 * 10 + digitVal m2
      let da := digitVal d1 * 10 + digitVal d2
      if 1 ≤ y && 1 ≤ mo && mo ≤ 12 && 1 ≤ da && da ≤ daysInMonth y mo then
        match rest with
        | [] => some ⟨y, mo, da, 0, 0, 0⟩
        | sep :: t =>
          if sep = ' ' || sep = 'T' then
            match parseIsoTime t with
            | some (h, n, s) => some ⟨y, mo, da, h, n, s⟩
            | none => none
          else none
      else none
    else none
  | _ => none

/-- `_parse_dt` from the source (`src/main.py` lines 230-250): `None`, an
empty/NaN-marker string parse to nothing; otherwise `fromisoformat` is tried
with a trailing `Z` stripped.  The `dateutil` fuzzy fallback is outside the
modelled subset: strings beyond the ISO core forms yield `none`. -/
def _parse_dt (val : PyVal) : Option DateTime :=
  match val with
  | .pnone => none
  | v =>
    let s := pyStrip (pyToStr v)
    if s.isEmpty || ["nan", "none", "nat"].contains (pyLower s) then none
    else
      let core := if pyEndsWith s "Z" then pyDropRight s 1 else s
      parseIsoChars core.data

/-! ## Style-mirroring timestamp formatting (`_format_dt_like`) -/

/-- Python regex `\w` on the ASCII inputs the engine sees. -/
def isWordChar (c : Char) : Bool := c.isAlphanum || c = '_'

/-- Try to match a fixed-length character-predicate pattern at the head of
the list, returning the remainder on success. -/
def matchRun : List (Char → Bool) → List Char → Option (List Char)
  | [], l => some l
  | _ :: _, [] => none
  | p :: ps, c :: l => if p c then matchRun ps l else none

/-- One regex-search position: the pre-context check on the previous
character, the pattern, then the post-context check on the remainder. -/
def patHere (shape : List (Char → Bool)) (pre : Option Char → Bool)
    (post : List Char → Bool) (prev : Option Char) (l : List Char) : Bool :=
  pre prev && (match matchRun shape l with
               | some rest => post rest
               | none => false)

/-- `re.search` of a fixed-length pattern with context checks: try every
position of the list. -/
def searchPatFrom (shape : List (Char → Bool)) (pre : Option Char → Bool)
    (post : List Char → Bool) : Option Char → List Char → Bool
  | prev, [] => patHere shape pre post prev []
  | prev, c :: t =>
    patHere shape pre post prev (c :: t) || searchPatFrom shape pre post (some c) t

/-- Word boundary `\b` before the (digit-initial) pattern. -/
def boundaryBefore : Option Char → Bool
  | none => true
  | some c => !isWordChar c

/-- Word boundary `\b` after the (digit-final) pattern. -/
def boundaryAfter : List Char → Bool
  | [] => true
  | c :: _ => !isWordChar c

/-- Shape of a date regex: `a` digits, a separator, `b` digits, the
separator, `c` digits. -/
def dateShape (a : Nat) (sep : Char) (b c : Nat) : List (Char → Bool) :=
  List.replicate a Char.isDigit ++ [fun ch => ch == sep]
    ++ List.replicate b Char.isDigit ++ [fun ch => ch == sep]
    ++ List.replicate c Char.isDigit

/-- `re.search` of `\b\d{a}<sep>\d{b}<sep>\d{c}\b` over a string. -/
def hasDatePat (s : String) (a : Nat) (sep : Char) (b c : Nat) : Bool :=
  searchPatFrom (dateShape a sep b c) boundaryBefore boundaryAfter none s.data

/-- `re.search` of `:\d{2}:\d{2}(?!\d)` over a string (the seconds probe of
`_format_dt_like`). -/
def hasSecondsPat (s : String) : Bool :=
  searchPatFrom
    [fun ch => ch == ':', Char.isDigit, Char.isDigit, fun ch => ch == ':', Char.isDigit, Char.isDigit]
    (fun _ => true)
    (fun l => match l with | [] => true | c :: _ => !c.isDigit)
    none s.data

/-- Date-component order and separator detected from a sample string. -/
inductive DateStyle where
  | dmy : Char → DateStyle
  | ymd : Char → DateStyle
deriving DecidableEq, Repr

/-- Zero-padded two-digit rendering. -/
def pad2 (n : Nat) : String := if n < 10 then "0" ++ toString n else toString n

/-- Zero-padded four-digit year rendering (`%Y`). -/
def pad4 (y : Int) : String :=
  let n := y.toNat
  if n < 10 then "000" ++ toString n
  else if n < 100 then "00" ++ toString n
  else if n < 1000 then "0" ++ toString n
  else toString n

/-- Render the date part of a `DateTime` in a detected style. -/
def renderDate (style : DateStyle) (dt : DateTime) : String :=
  match style with
  | .dmy sep => pad2 dt.day ++ String.singleton sep ++ pad2 dt.month ++ String.singleton sep ++ pad4 dt.year
  | .ymd sep => pad4 dt.year ++ String.singleton sep ++ pad2 dt.month ++ String.singleton sep ++ pad2 dt.day

/-- `_format_dt_like` from the source (`src/main.py` lines 252-287): format
`dt` mirroring the date-component order/separator, the `T` separator and the
presence of seconds detected in `sample`. -/
def _format_dt_like (dt : DateTime) (sample : PyVal) : String :=
  let s := pyStrip (pyOrEmptyStr sample)
  let sep : Char := if pyContains s 'T' && !pyContains s ' ' then 'T' else ' '
  let style : DateStyle :=
    if hasDatePat s 2 '.' 2 4 then .dmy '.'
    else if hasDatePat s 2 '/' 2 4 then .dmy '/'
    else if hasDatePat s 2 '-' 2 4 then .dmy '-'
    else if hasDatePat s 4 '/' 2 2 then .ymd '/'
    else if hasDatePat s 4 '.' 2 2 then .ymd '.'
    else if hasDatePat s 4 '-' 2 2 then .ymd '-'
    else .ymd '-'
  let timeStr :=
    if hasSecondsPat s then pad2 dt.hour ++ ":" ++ pad2 dt.minute ++ ":" ++ pad2 dt.second
    else pad2 dt.hour ++ ":" ++ pad2 dt.minute
  renderDate style dt ++ String.singleton sep ++ timeStr

/-! ## SHA-1 content fingerprint (`hashlib.sha1(...).hexdigest()[:12]`) -/

/-- UTF-8 bytes of one code point. -/
def utf8Char (c : Char) : List Nat :=
  let n := c.toNat
  if n < 128 then [n]
  else if n < 2048 then [192 ||| (n >>> 6), 128 ||| (n &&& 63)]
  else if n < 65536 then
    [224 ||| (n >>> 12), 128 ||| ((n >>> 6) &&& 63), 128 ||| (n &&& 63)]
  else
    [240 ||| (n >>> 18), 128 ||| ((n >>> 12) &&& 63),
     128 ||| ((n >>> 6) &&& 63), 128 ||| (n &&& 63)]

/-- `s.encode("utf-8", "ignore")` for the valid strings Lean holds. -/
def utf8Bytes (s : String) : List Nat := (s.data.map utf8Char).flatten

/-- Rotate a 32-bit word left by `n`. -/
def rotl32 (n x : Nat) : Nat := ((x <<< n) ||| (x >>> (32 - n))) % 4294967296

/-- Big-endian bytes (most significant first) of a value, `k` bytes wide. -/
def beBytes (k v : Nat) : List Nat :=
  match k with
  | 0 => []
  | k + 1 => (v >>> (k * 8)) % 256 :: beBytes k v

/-- SHA-1 message padding: append `0x80`, zero bytes to 56 mod 64, then the
bit length as 8 big-endian bytes. -/
def sha1Pad (msg : List Nat) : List Nat :=
  let r := (msg.length + 1) % 64
  let k := if r ≤ 56 then 56 - r else 120 - r
  msg ++ [128] ++ List.replicate k 0 ++ beBytes 8 (msg.length * 8)

/-- Group a byte list into big-endian 32-bit words. -/
def bytesToWords : List Nat → List Nat
  | b0 :: b1 :: b2 :: b3 :: rest =>
    (b0 <<< 24 ||| b1 <<< 16 ||| b2 <<< 8 ||| b3) :: bytesToWords rest
  | _ => []

/-- Split a word list into 16-word blocks (a padded SHA-1 message is always
a whole number of blocks). -/
def wordBlocks : List Nat → List (List Nat)
  | w0 :: w1 :: w2 :: w3 :: w4 :: w5 :: w6 :: w7 ::
    w8 :: w9 :: w10 :: w11 :: w12 :: w13 :: w14 :: w15 :: rest =>
    [w0, w1, w2, w3, w4, w5, w6, w7, w8, w9, w10, w11, w12, w13, w14, w15]
      :: wordBlocks rest
  | _ => []

/-- Extend the last-16-word window by the next scheduled word, `fuel`
times, collecting the produced words. -/
def sha1Expand : Nat → List Nat → List Nat
  | 0, _ => []
  | fuel + 1, window =>
    let w := rotl32 1 (window.getD 13 0 ^^^ window.getD 8 0 ^^^ window.getD 2 0 ^^^ window.getD 0 0)
    w :: sha1Expand fuel (window.drop 1 ++ [w])

/-- The 80-word message schedule of one block. -/
def sha1Schedule (block : List Nat) : List Nat := block ++ sha1Expand 64 block

/-- The round function and constant for round `i`. -/
def sha1FK (i b c d : Nat) : Nat × Nat :=
  if i < 20 then ((b &&& c) ||| (((b ^^^ 4294967295) &&& 4294967295) &&& d), 1518500249)
  else if i < 40 then (b ^^^ c ^^^ d, 1859775393)
  else if i < 60 then ((b &&& c) ||| (b &&& d) ||| (c &&& d), 2400959708)
  else (b ^^^ c ^^^ d, 3395469782)

/-- One SHA-1 compression round. -/
def sha1Round (st : Nat × Nat × Nat × Nat × Nat) (iw : Nat × Nat) :
    Nat × Nat × Nat × Nat × Nat :=
  let (a, b, c, d, e) := st
  let (i, w) := iw
  let (f, kc) := sha1FK i b c d
  let tmp := (rotl32 5 a + f + e + kc + w) % 4294967296
  (tmp, a, rotl32 30 b, c, d)

/-- Compress one block into the running hash state. -/
def sha1Block (h : Nat × Nat × Nat × Nat × Nat) (block : List Nat) :
    Nat × Nat × Nat × Nat × Nat :=
  let (h0, h1, h2, h3, h4) := h
  let ws := (sha1Schedule block).enum
  let (a, b, c, d, e) := ws.foldl sha1Round (h0, h1, h2, h3, h4)
  ((h0 + a) % 4294967296, (h1 + b) % 4294967296, (h2 + c) % 4294967296,
   (h3 + d) % 4294967296, (h4 + e) % 4294967296)

/-- Lower-case hex digit. -/
def hexDigit (n : Nat) : Char :=
  if n < 10 then Char.ofNat (48 + n) else Char.ofNat (87 + n)

/-- Eight lower-case hex digits of a 32-bit word. -/
def hexWord (v : Nat) : List Char :=
  (List.range 8).map (fun i => hexDigit ((v >>> ((7 - i) * 8 / 2)) &&& 15))

/-- `hashlib.sha1(bytes).hexdigest()`. -/
def sha1Hex (msg : List Nat) : String :=
  let blocks := wordBlocks (bytesToWords (sha1Pad msg))
  let (h0, h1, h2, h3, h4) :=
    blocks.foldl sha1Block (1732584193, 4023233417, 2562383102, 271733878, 3285377520)
  ⟨hexWord h0 ++ hexWord h1 ++ hexWord h2 ++ hexWord h3 ++ hexWord h4⟩

/-! ## Localization and the status engine -/

/-- The supported language set (`SUPPORTED_LANGS`, `src/main.py` line 387). -/
def SUPPORTED_LANGS : List String :=
  ["en", "de", "nl", "es", "it", "ro", "ru", "lt", "kk", "hi", "pl", "hu", "uz", "tg", "ky", "be"]

/-- `normalize_lang` from the source (`src/main.py` lines 389-434): strip,
lowercase, take the base tag before `-`/`_`, map known aliases, default to
`"en"`. -/
def normalize_lang (value : PyVal) : String :=
  let s := pyLower (pyStrip (pyOrEmptyStr value))
  if s.isEmpty then "en"
  else
    let s1 : String := ⟨s.data.map (fun c => if c = '_' then '-' else c)⟩
    let base : String := ⟨s1.data.takeWhile (fun c => c ≠ '-')⟩
    if SUPPORTED_LANGS.contains base then base
    else if base = "eng" then "en"
    else if ["ger", "deu"].contains base then "de"
    else if ["dut", "nld"].contains base then "nl"
    else if base = "rus" then "ru"
    else if base = "lit" then "lt"
    else if ["kaz", "kz"].contains base then "kk"
    else if base = "hin" then "hi"
    else if base = "pol" then "pl"
    else if base = "hun" then "hu"
    else if base = "uzb" then "uz"
    else if ["tgk", "taj", "tj"].contains base then "tg"
    else if ["kir", "kg"].contains base then "ky"
    else if ["bel", "by"].contains base then "be"
    else if ["spa", "esp"].contains base then "es"
    else if base = "ita" then "it"
    else if ["rom", "ron", "rum"].contains base then "ro"
    else "en"

/-- The six status message templates of one language row of `_I18N_STATUS`. -/
structure StatusTexts where
  departed : String
  loc_with_trailer : String
  loc_no_trailer : String
  closedoor : String
  loading : String
  report : String
deriving DecidableEq, Repr

/-- `_I18N_STATUS` from the source (`src/main.py` lines 437-567), as a total
lookup that falls back to English (`_I18N_STATUS.get(l) or _I18N_STATUS["en"]`;
`normalize_lang` only ever produces the sixteen supported tags). -/
def _I18N_STATUS : String → StatusTexts
  | "de" => ⟨"Fahren Sie vorsichtig – wir erwarten Sie zurück!",
      "Bitte koppeln Sie den Anhänger {trailer} am Standort: {location} an und holen Sie die CMR-Dokumente im Büro ab!",
      "Bitte koppeln Sie den Anhänger am Standort: {location} an und holen Sie die CMR-Dokumente im Büro ab!",
      "Ihr Anhänger ist fertig. Bitte melden Sie sich im Büro für weitere Informationen!",
      "Ihr Anhänger wird beladen – bitte warten!",
      "Bitte melden Sie sich im Büro!"⟩
  | "nl" => ⟨"Rij veilig – we wachten op je terugkeer!",
      "Koppel de trailer {trailer} op locatie: {location} en haal de CMR-documenten op in het kantoor!",
      "Koppel de trailer op locatie: {location} en haal de CMR-documenten op in het kantoor!",
      "Je trailer is gereed. Meld je in het kantoor voor verdere informatie!",
      "Je trailer wordt geladen – even wachten!",
      "Meld je in het kantoor!"⟩
  | "es" => ⟨"Buen viaje — ¡te esperamos de vuelta!",
      "Por favor conecta el remolque {trailer} en la ubicación: {location} y recoge los documentos CMR en la oficina!",
      "Por favor conecta el remolque en la ubicación: {location} y recoge los documentos CMR en la oficina!",
      "Tu remolque está listo. Preséntate en la oficina para más información!",
      "Tu remolque se está cargando — espera, por favor!",
      "¡Preséntate en la oficina!"⟩
  | "it" => ⟨"Buon viaggio — ti aspettiamo di nuovo!",
      "Collega il rimorchio {trailer} alla posizione: {location} e ritira i documenti CMR in ufficio!",
      "Collega il rimorchio alla posizione: {location} e ritira i documenti CMR in ufficio!",
      "Il tuo rimorchio è pronto. Presentati in ufficio per ulteriori informazioni!",
      "Il tuo rimorchio è in carico — attendi!",
      "Presentati in ufficio!"⟩
  | "ro" => ⟨"Drum bun — te așteptăm înapoi!",
      "Vă rugăm să conectați remorca {trailer} la locația: {location} și să ridicați documentele CMR din birou!",
      "Vă rugăm să conectați remorca la locația: {location} și să ridicați documentele CMR din birou!",
      "Remorca ta este gata. Te rugăm să te prezinți la birou pentru informații suplimentare!",
      "Remorca ta este în curs de încărcare — te rugăm să aștepți!",
      "Te rugăm să te prezinți la birou!"⟩
  | "ru" => ⟨"Счастливого пути — ждём вас обратно!",
      "Пожалуйста, прицепите прицеп {trailer} на месте: {location} и заберите документы CMR в офисе!",
      "Пожалуйста, прицепите прицеп на месте: {location} и заберите документы CMR в офисе!",
      "Ваш прицеп готов. Пожалуйста, подойдите в офис за дальнейшей информацией!",
      "Ваш прицеп загружается — пожалуйста, подождите!",
      "Пожалуйста, подойдите в офис!"⟩
  | "lt" => ⟨"Saugios kelionės – laukiame jūsų sugrįžtant!",
      "Prašome prijungti priekabą {trailer} vietoje: {location} ir pasiimti CMR dokumentus biure!",
      "Prašome prijungti priekabą vietoje: {location} ir pasiimti CMR dokumentus biure!",
      "Jūsų priekaba paruošta. Prašome užsukti į biurą dėl tolimesnės informacijos!",
      "Jūsų priekaba kraunama – prašome palaukti!",
      "Prašome užsukti į biurą!"⟩
  | "kk" => ⟨"Сәтті жол — сізді қайта күтеміз!",
      "{location} орнында {trailer} тіркемесін қосып, CMR құжаттарын кеңседен алыңыз!",
      "{location} орнында тіркемені қосып, CMR құжаттарын кеңседен алыңыз!",
      "Тіркеме дайын. Қосымша ақпарат үшін кеңсеге келіңіз!",
      "Тіркеме тиелуде — күтіңіз!",
      "Кеңсеге келіңіз!"⟩
  | "hi" => ⟨"सुरक्षित यात्रा करें — हम आपका वापस इंतज़ार करेंगे!",
      "कृपया {location} स्थान पर ट्रेलर {trailer} जोड़ें और CMR दस्तावेज़ कार्यालय से लें!",
      "कृपया {location} स्थान पर ट्रेलर जोड़ें और CMR दस्तावेज़ कार्यालय से लें!",
      "आपका ट्रेलर तैयार है। आगे की जानकारी के लिए कृपया कार्यालय में रिपोर्ट करें!",
      "आपका ट्रेलर लोड हो रहा है — कृपया प्रतीक्षा करें!",
      "कृपया कार्यालय में रिपोर्ट करें!"⟩
  | "pl" => ⟨"Szerokiej drogi — czekamy na Twój powrót!",
      "Proszę podpiąć naczepę {trailer} na lokalizacji: {location} i odebrać dokumenty CMR w biurze!",
      "Proszę podpiąć naczepę na lokalizacji: {location} i odebrać dokumenty CMR w biurze!",
      "Twoja naczepa jest gotowa. Proszę zgłosić się do biura po dalsze informacje!",
      "Twoja naczepa jest ładowana — proszę czekać!",
      "Proszę zgłosić się do biura!"⟩
  | "hu" => ⟨"Vezess óvatosan – várunk vissza!",
      "Kérjük, csatlakoztasd a(z) {trailer} pótkocsit a következő helyen: {location}, és vedd fel a CMR dokumentumokat az irodában!",
      "Kérjük, csatlakoztasd a pótkocsit a következő helyen: {location}, és vedd fel a CMR dokumentumokat az irodában!",
      "A pótkocsid kész. További információért jelentkezz az irodában!",
      "A pótkocsid rakodás alatt – kérjük, várj!",
      "Kérjük, jelentkezz az irodában!"⟩
  | "uz" => ⟨"Xavfsiz haydang — sizni qaytib kelishingizni kutamiz!",
      "Iltimos, {location} joyida {trailer} treylerini ulang va CMR hujjatlarini ofisdan oling!",
      "Iltimos, {location} joyida treylerini ulang va CMR hujjatlarini ofisdan oling!",
      "Treyleringiz tayyor. Qo‘shimcha ma’lumot uchun ofisga murojaat qiling!",
      "Treyleringiz yuklanmoqda — iltimos, kuting!",
      "Iltimos, ofisga murojaat qiling!"⟩
  | "tg" => ⟨"Сафар ба хайр — мо шуморо боз интизорем!",
      "Лутфан прицепи {trailer}-ро дар ҷойи {location} васл кунед ва ҳуҷҷатҳои CMR-ро аз офис гиред!",
      "Лутфан прицепро дар ҷойи {location} васл кунед ва ҳуҷҷатҳои CMR-ро аз офис гиред!",
      "Прицепи шумо тайёр аст. Барои маълумоти бештар ба офис ҳозир шавед!",
      "Прицепи шумо бор карда мешавад — лутфан интизор шавед!",
      "Лутфан ба офис ҳозир шавед!"⟩
  | "ky" => ⟨"Жолуңуз болсун — кайра келишиңизди күтөбүз!",
      "Сураныч, {location} жерде {trailer} чиркегичин туташтырып, CMR документтерин кеңседен алыңыз!",
      "Сураныч, {location} жерде чиркегичти туташтырып, CMR документтерин кеңседен алыңыз!",
      "Чиркегичиңиз даяр. Кошумча маалымат үчүн кеңсеге келиңиз!",
      "Чиркегичиңиз жүктөлүүдө — сураныч, күтө туруңуз!",
      "Сураныч, кеңсеге келиңиз!"⟩
  | "be" => ⟨"Шчаслівай дарогі — чакаем вас назад!",
      "Калі ласка, прычапіце прычэп {trailer} у месцы: {location} і забярыце дакументы CMR у офісе!",
      "Калі ласка, прычапіце прычэп у месцы: {location} і забярыце дакументы CMR у офісе!",
      "Ваш прычэп гатовы. Калі ласка, зайдзіце ў офіс для далейшай інфармацыі!",
      "Ваш прычэп загружаецца — калі ласка, пачакайце!",
      "Калі ласка, зайдзіце ў офіс!"⟩
  | _ => ⟨"Drive safe, we wait you back!",
      "Please connect the {trailer} trailer on location: {location} and pick up the CMR documents in the office!",
      "Please connect the trailer on location: {location} and pick up the CMR documents in the office!",
      "Your trailer is ready, please report in the office for further information!",
      "Your trailer is being loaded, please wait!",
      "Please report in the office!"⟩

/-- One-pass rendering of a `{trailer}` / `{location}` template
(`str.format` field substitution on the fixed templates). -/
def renderTL : List Char → List Char → List Char → List Char
  | '{' :: 't' :: 'r' :: 'a' :: 'i' :: 'l' :: 'e' :: 'r' :: '}' :: rest, tv, lv =>
    tv ++ renderTL rest tv lv
  | '{' :: 'l' :: 'o' :: 'c' :: 'a' :: 't' :: 'i' :: 'o' :: 'n' :: '}' :: rest, tv, lv =>
    lv ++ renderTL rest tv lv
  | c :: rest, tv, lv => c :: renderTL rest tv lv
  | [], _, _ => []

/-- `tmpl.format(trailer=..., location=...)`. -/
def pyFormatTL (tmpl trailerV locV : String) : String :=
  ⟨renderTL tmpl.data trailerV.data locV.data⟩

/-- The status record returned by the engine. -/
structure DriverStatus where
  status_key : String
  status_text : String
  report_in_office_at : String
deriving DecidableEq, Repr

/-- The dispatcher manual-message store `MANUAL_STATUS_BY_PLATE`, passed
explicitly. -/
abbrev ManualMap := List (String × String)

/-- The manual-message guard of `compute_driver_status` (`src/main.py`
lines 629-636): normalize the plate (a raised normalization error is caught
and yields an empty plate), look the plate up in the manual store, strip. -/
def _manual_msg (manual : ManualMap) (m : Rec) : String :=
  let plate_n := normalizePlateVal (rget m "license_plate" (.pstr ""))
  let msg := if plate_n.isEmpty then "" else (manual.lookup plate_n).getD ""
  pyStrip msg

/-- The departed guard of `compute_driver_status` (`src/main.py`
lines 647-652): the `departed` field as a flag (string forms `1/true/yes/y`),
else a present `departed_at` timestamp. -/
def _departed_flag (m : Rec) : Bool :=
  let d1 : Bool :=
    match rget m "departed" (.pbool false) with
    | .pstr s => ["1", "true", "yes", "y"].contains (pyLower (pyStrip s))
    | .pbool b => b
    | .pnone => false
  if d1 then true else _has (rget m "departed_at" (.pstr ""))

/-- `compute_driver_status` from the source (`src/main.py` lines 623-692),
with the manual-message store and the current time as explicit arguments.
The manual branch uses the SHA-1 content fingerprint (the `hashlib` import
cannot fail, so the bare `"driver_message"` fallback key is unreachable);
the 45-minute comparison `(sched_dt - now).total_seconds() / 60.0 > 45` is
the exact integer comparison of the second difference with 2700. -/
def compute_driver_status (manual : ManualMap) (now : DateTime) (m : Rec)
    (lang : String) : DriverStatus :=
  let tmpl := _I18N_STATUS (normalize_lang (.pstr lang))
  let msg := _manual_msg manual m
  if msg ≠ "" then
    { status_key := "driver_message:" ++ pyTake (sha1Hex (utf8Bytes msg)) 12,
      status_text := msg, report_in_office_at := "" }
  else if _departed_flag m then
    { status_key := "DEPARTED", status_text := tmpl.departed, report_in_office_at := "" }
  else
    let close_door := rget m "close_door" (.pstr "")
    let location := _clean_location_value (rget m "location" (.pstr ""))
    let trailer := pyStrip (pyOrEmptyStr (rget m "trailer" (.pstr "")))
    let sched_raw := rget m "scheduled_departure" (.pstr "")
    let sched_dt := _parse_dt sched_raw
    let km : String × String :=
      if _has (.pstr location) then
        if trailer ≠ "" then
          ("LOCATION", pyFormatTL tmpl.loc_with_trailer trailer location)
        else
          ("LOCATION", pyFormatTL tmpl.loc_no_trailer "" location)
      else if _has close_door then
        ("CLOSEDOOR_NO_LOCATION", tmpl.closedoor)
      else
        match sched_dt with
        | some d =>
          if 2700 < d.toSecs - now.toSecs then ("LOADING_WAIT", tmpl.loading)
          else ("REPORT_OFFICE", tmpl.report)
        | none => ("REPORT_OFFICE", tmpl.report)
    let report_at :=
      match sched_dt with
      | some d => _format_dt_like (d.subMinutes 45) sched_raw
      | none => ""
    { status_key := km.1, status_text := km.2, report_in_office_at := report_at }

/-! ## Change-notification dispatcher -/

/-- The notification cache `LAST_STATUS_KEY_BY_PLATE`: plate to last-emitted
status key. -/
abbrev Cache := List (String × String)

/-- Python dict assignment `d[k] = v` on an association list. -/
def dictSet {α : Type} : List (String × α) → String → α → List (String × α)
  | [], k, v => [(k, v)]
  | (k0, v0) :: t, k, v =>
    if k0 = k then (k, v) :: t else (k0, v0) :: dictSet t k v

/-- The outcome of processing one movement: the updated cache and the list
of plates a status-change push was dispatched for. -/
structure StepResult where
  cache : Cache
  pushes : List String
deriving DecidableEq, Repr

/-- One iteration of the dispatcher loop body, shared verbatim by the
snapshot-upload path (`src/main.py` lines 1224-1236) and the periodic tick
(`src/main.py` lines 173-185): skip empty plates; on first observation seed
the cache without pushing; on a changed key update the cache and push; on an
unchanged key do nothing. -/
def dispatch_step (manual : ManualMap) (now : DateTime) (cache : Cache)
    (m : Rec) : StepResult :=
  let plate := normalizePlateVal (rget m "license_plate" (.pstr ""))
  if plate = "" then ⟨cache, []⟩
  else
    let new_key := (compute_driver_status manual now m "en").status_key
    match cache.lookup plate with
    | none => ⟨dictSet cache plate new_key, []⟩
    | some old_key =>
      if new_key ≠ old_key then ⟨dictSet cache plate new_key, [plate]⟩
      else ⟨cache, []⟩

/-- The full pass over a snapshot, as run by both dispatcher triggers. -/
def process_movements (manual : ManualMap) (now : DateTime) (cache : Cache)
    (ms : List Rec) : StepResult :=
  ms.foldl (fun acc m =>
    let r := dispatch_step manual now acc.cache m
    ⟨r.cache, acc.pushes ++ r.pushes⟩) ⟨cache, []⟩

/-! ## Subscription registry pruning -/

/-- A web-push subscription as stored in `SUBSCRIPTIONS_BY_PLATE`: the
endpoint descriptor plus the stored language tag. -/
structure PushSub where
  endpoint : String
  lang : String
deriving DecidableEq, Repr

/-- The subscription registry: plate to subscription list. -/
abbrev Registry := List (String × List PushSub)

/-- The per-subscription loop of `_push_to_plate_localized` (`src/main.py`
lines 909-930): attempt delivery for every subscription independently, keep
exactly the ones whose `webpush` call succeeded.  The delivery outcome
(success, or any raised delivery error) is the oracle `deliver`. -/
def _push_alive (deliver : PushSub → Bool) : List PushSub → List PushSub
  | [] => []
  | s :: rest =>
    if deliver s then s :: _push_alive deliver rest
    else _push_alive deliver rest

/-- `_push_to_plate_localized` from the source (`src/main.py` lines
898-932), restricted to its registry effect: no-op when push is disabled or
the plate has no subscriptions, otherwise replace the plate entry by the
subscriptions that delivered.  Payload construction per stored language is
absorbed into the delivery oracle. -/
def _push_to_plate_localized (pushEnabled : Bool) (deliver : PushSub → Bool)
    (reg : Registry) (plate : String) : Registry :=
  if !pushEnabled then reg
  else
    let subs := (reg.lookup plate).getD []
    if subs = [] then reg
    else dictSet reg plate (_push_alive deliver subs)

/-! ## Destination resolver -/

/-- A row of the geo-oriented source `LOCATION_BY_CODE` (loaded from the
locations workbook): city, country and optional coordinates, exactly the
fields `_load_xlsx_map_locations` stores. -/
structure LocRow where
  city : String
  country : String
  lat : Option ℚ
  lon : Option ℚ
deriving DecidableEq, Repr

/-- A row of the locality-oriented source `DESTLAND_BY_CODE` (loaded from
the dest-land workbook): city and country only. -/
structure DlRow where
  city : String
  country : String
deriving DecidableEq, Repr

/-- `_first_nonempty` from the source (`src/main.py` lines 1108-1112):
the first present field with `_has` content, else nothing. -/
def _first_nonempty (rec : Rec) : List String → Option PyVal
  | [] => none
  | k :: ks =>
    match rec.lookup k with
    | some v => if _has v then some v else _first_nonempty rec ks
    | none => _first_nonempty rec ks

/-- Parse the plain decimal subset of Python `float(s)`: optional sign,
digits with at most one point.  Exponent and special forms are outside the
modelled subset. -/
def parseDecimal (s : String) : Option ℚ :=
  let (sign, body) :=
    match s.data with
    | '-' :: t => ((-1 : Int), t)
    | '+' :: t => ((1 : Int), t)
    | t => ((1 : Int), t)
  let intPart := body.takeWhile Char.isDigit
  let rest := body.drop intPart.length
  let frac : Option (List Char) :=
    match rest with
    | [] => some []
    | '.' :: f => if f.all Char.isDigit then some f else none
    | _ => none
  match frac with
  | none => none
  | some f =>
    if intPart.isEmpty && f.isEmpty then none
    else
      let iv : Nat := intPart.foldl (fun a c => a * 10 + digitVal c) 0
      let fv : Nat := f.foldl (fun a c => a * 10 + digitVal c) 0
      some (mkRat (sign * (iv * 10 ^ f.length + fv)) (10 ^ f.length))

/-- `_safe_float` from the source (`src/main.py` lines 978-987): `None`,
empty and NaN-marker strings parse to nothing, otherwise `float(str(v))`. -/
def _safe_float : Option PyVal → Option ℚ
  | none => none
  | some v =>
    let s := pyStrip (pyToStr v)
    if s.isEmpty || ["nan", "none", "nat"].contains (pyLower s) then none
    else parseDecimal s

/-- The substring of `s` after the last `(` (Python `s.split("(")[-1]`). -/
def afterLastParen (s : String) : String :=
  ⟨(s.data.reverse.takeWhile (fun c => c ≠ '(')).reverse⟩

/-- `_extract_code_from_text` from the source (`src/main.py` lines
1081-1105): try the trailing parenthesized token, then the whole normalized
string, then the last delimiter-separated token; a candidate qualifies as a
2-10 character code (the non-parenthesized tries also demand a letter). -/
def _extract_code_from_text (v : Option PyVal) : String :=
  let s := pyUpper (pyStrip (pyOrEmptyStr ((v.getD (.pstr "")))))
  if s.isEmpty || ["nan", "none", "nat"].contains (pyLower s) then ""
  else
    let try1 :=
      if pyContains s '(' && pyEndsWith s ")" then
        let inside := _norm_code (pyStrip (pyRemoveChars (afterLastParen s) [')']))
        if 2 ≤ inside.length && inside.length ≤ 10 then inside else ""
      else ""
    if !try1.isEmpty then try1
    else
      let compact := _norm_code s
      if 2 ≤ compact.length && compact.length ≤ 10 && compact.data.any Char.isAlpha then
        compact
      else
        let parts := pySplitWs (pyCharsToSpace s [',', '/'])
        match parts.getLast? with
        | some p =>
          let last := _norm_code p
          if 2 ≤ last.length && last.length ≤ 10 && last.data.any Char.isAlpha then last
          else ""
        | none => ""

/-- The ordered destination field aliases tried by `resolve_destination`. -/
def destCodeAliases : List String :=
  ["dest_code", "DestCode", "DEST_CODE",
   "destination_code", "DestinationCode", "DESTINATION_CODE",
   "dest", "Dest", "DEST",
   "destination", "Destination",
   "destination_text", "DestinationText",
   "dest_text", "DestText", "DEST_TEXT"]

/-- The latitude field aliases tried by `resolve_destination`. -/
def destLatAliases : List String :=
  ["dest_lat", "DestLat", "destination_lat", "DestinationLat", "lat_dest", "LatDest"]

/-- The longitude field aliases tried by `resolve_destination`. -/
def destLonAliases : List String :=
  ["dest_lon", "DestLon", "destination_lon", "DestinationLon", "lon_dest", "LonDest"]

/-- The city/country merge of `resolve_destination` (`src/main.py` lines
1152-1165): the locality row wins; the geo row fills the gaps, stripping a
leading `"<CODE> "` echo from its city name. -/
def _city_country (code_n : String) (loc_row : Option LocRow)
    (dl_row : Option DlRow) : String × String :=
  let city := match dl_row with | some r => pyStrip r.city | none => ""
  let country := match dl_row with | some r => pyStrip r.country | none => ""
  match loc_row with
  | none => (city, country)
  | some r =>
    let city1 :=
      if city = "" then
        let c := pyStrip r.city
        if code_n ≠ "" ∧ pyStartsWith (pyUpper c) (code_n ++ " ") = true then
          pyStrip (pyDropLeft c (code_n.length + 1))
        else c
      else city
    let country1 := if country = "" then pyStrip r.country else country
    (city1, country1)

/-- `resolve_destination` from the source (`src/main.py` lines 1115-1178),
with the two read-only directory tables as explicit arguments: extract a
code, take coordinates from the record first and the geo table for whichever
is missing, merge city/country with locality precedence, compose the display
text with graceful degradation. -/
def resolve_destination (locByCode : List (String × LocRow))
    (dlByCode : List (String × DlRow)) (rec : Rec) :
    String × Option ℚ × Option ℚ :=
  let raw_code := _first_nonempty rec destCodeAliases
  let code := _extract_code_from_text raw_code
  let code_n := _norm_code code
  let lat0 := _safe_float (_first_nonempty rec destLatAliases)
  let lon0 := _safe_float (_first_nonempty rec destLonAliases)
  let loc_row := if code_n = "" then none else locByCode.lookup code_n
  let dl_row := if code_n = "" then none else dlByCode.lookup code_n
  let lat := match loc_row with
    | some r => match lat0 with | some x => some x | none => r.lat
    | none => lat0
  let lon := match loc_row with
    | some r => match lon0 with | some x => some x | none => r.lon
    | none => lon0
  let cc := _city_country code_n loc_row dl_row
  let city := cc.1
  let country := cc.2
  let dest_text :=
    if city ≠ "" ∧ country ≠ "" ∧ code_n ≠ "" then
      city ++ ", " ++ country ++ " (" ++ code_n ++ ")"
    else if city ≠ "" ∧ country ≠ "" then
      city ++ ", " ++ country
    else if code_n ≠ "" then code_n
    else
      match _first_nonempty rec ["destination_text", "dest_text", "destination", "Destination"] with
      | some v => pyToStr v
      | none => "-"
  (dest_text, lat, lon)

/-! ## Route geometry provider chain -/

/-- `l[::step]` for a positive stride. -/
def strideAux {α : Type} (step : Nat) : List α → Nat → List α
  | [], _ => []
  | x :: t, 0 => x :: strideAux step t (step - 1)
  | _ :: t, k + 1 => strideAux step t k

/-- Python `l[::step]`. -/
def pyStride {α : Type} (l : List α) (step : Nat) : List α := strideAux step l 0

/-- The shared downsampling step of both fetchers (`src/main.py` lines
760-764 and 817-822): above 1200 points, stride-sample and re-append the
destination when the last point is not already it
(`int(math.ceil(len / 1200.0))` is exact on these sizes). -/
def _downsample (destLat destLon : ℚ) (pts : List (ℚ × ℚ)) : List (ℚ × ℚ) :=
  if 1200 < pts.length then
    let step := (pts.length + 1199) / 1200
    let pts2 := pyStride pts step
    if !pts2.isEmpty && pts2.getLast? ≠ some (destLat, destLon) then
      pts2 ++ [(destLat, destLon)]
    else pts2
  else pts

/-- `_fetch_ors_route_coords` from the source (`src/main.py` lines 714-768):
nothing when no credential is configured; otherwise the latitude/longitude
points extracted from the provider response (`resp`, the oracle for the
network call: `none` for any failure or empty/malformed result), downsampled.
An empty coordinate list is a failure. -/
def _fetch_ors_route_coords (apiKey : String) (resp : Option (List (ℚ × ℚ)))
    (destLat destLon : ℚ) : Option (List (ℚ × ℚ)) :=
  if (pyStrip apiKey).isEmpty then none
  else
    match resp with
    | none => none
    | some [] => none
    | some pts => some (_downsample destLat destLon pts)

/-- `_fetch_osrm_route_coords` from the source (`src/main.py` lines
770-826): the credential-free secondary provider; response handling and
downsampling as for the primary. -/
def _fetch_osrm_route_coords (resp : Option (List (ℚ × ℚ)))
    (destLat destLon : ℚ) : Option (List (ℚ × ℚ)) :=
  match resp with
  | none => none
  | some [] => none
  | some pts => some (_downsample destLat destLon pts)

/-- `build_route_points` from the source (`src/main.py` lines 828-846):
primary provider, then secondary, then the direct two-point line, returning
the polyline as `[lat, lon]` pairs plus the provenance key. -/
def build_route_points (apiKey : String)
    (orsResp osrmResp : Option (List (ℚ × ℚ)))
    (originLat originLon destLat destLon : ℚ) : List (List ℚ) × String :=
  match _fetch_ors_route_coords apiKey orsResp destLat destLon with
  | some (p :: ps) => ((p :: ps).map (fun q => [q.1, q.2]), "ORS")
  | _ =>
    match _fetch_osrm_route_coords osrmResp destLat destLon with
    | some (p :: ps) => ((p :: ps).map (fun q => [q.1, q.2]), "OSRM")
    | _ => ([[originLat, originLon], [destLat, destLon]], "DIRECT")

/-! ## Geofence / freshness gate -/

/-- The float transcendentals used by the haversine formula, as an oracle of
rational functions standing for the `math` library calls. -/
structure MathOracle where
  msin : ℚ → ℚ
  mcos : ℚ → ℚ
  matan2 : ℚ → ℚ → ℚ
  msqrt : ℚ → ℚ
  mradians : ℚ → ℚ

/-- `haversine_km` from the source (`src/main.py` lines 208-217): the
great-circle distance with mean earth radius 6371 km, over the math
oracle. -/
def haversine_km (o : MathOracle) (lat1 lon1 lat2 lon2 : ℚ) : ℚ :=
  let r : ℚ := 6371
  let phi1 := o.mradians lat1
  let phi2 := o.mradians lat2
  let dphi := o.mradians (lat2 - lat1)
  let dlambda := o.mradians (lon2 - lon1)
  let a := o.msin (dphi / 2) ^ 2 + o.mcos phi1 * o.mcos phi2 * o.msin (dlambda / 2) ^ 2
  let c := 2 * o.matan2 (o.msqrt a) (o.msqrt (1 - a))
  r * c

/-- Hub latitude (`HUB_LAT`). -/
def HUB_LAT : ℚ := 51.9672245
/-- Hub longitude (`HUB_LON`). -/
def HUB_LON : ℚ := 6.0205411
/-- Geofence radius in km (`GEOFENCE_RADIUS_KM`). -/
def GEOFENCE_RADIUS_KM : ℚ := 30
/-- Maximum allowed location-sample age in seconds
(`MAX_LOCATION_AGE_SECONDS`). -/
def MAX_LOCATION_AGE_SECONDS : Nat := 120

/-- The two distinguishable rejection reasons of the gate (the raised
HTTP 401 staleness error and HTTP 403 range error). -/
inductive GeofenceReject where
  | stale : GeofenceReject
  | out_of_range : GeofenceReject
deriving DecidableEq, Repr

/-- The HTTP status code each rejection carries. -/
def GeofenceReject.code : GeofenceReject → Nat
  | .stale => 401
  | .out_of_range => 403

/-- `geofence_check` from the source (`src/main.py` lines 220-227):
staleness first (`|now - ts|` beyond the fixed bound), then range (haversine
distance from the hub beyond the fixed radius); `none` means the request
passes. -/
def geofence_check (o : MathOracle) (now : Int) (lat lon : ℚ) (ts : Int) :
    Option GeofenceReject :=
  if MAX_LOCATION_AGE_SECONDS < (now - ts).natAbs then some .stale
  else if GEOFENCE_RADIUS_KM < haversine_km o lat lon HUB_LAT HUB_LON then
    some .out_of_range
  else none

/-! ## Helper lemmas -/

/-- Assigning a key makes it retrievable. -/
theorem lookup_dictSet {α : Type} (l : List (String × α)) (k : String) (v : α) :
    (dictSet l k v).lookup k = some v := by
  induction l with
  | nil => simp [dictSet, List.lookup]
  | cons p t ih =>
    by_cases h : p.1 = k
    · simp [dictSet, h, List.lookup]
    · have hb : (k == p.1) = false := by
        simp only [beq_eq_false_iff_ne, ne_eq]
        exact fun e => h e.symm
      simp only [dictSet]
      rw [if_neg h]
      simpa [List.lookup, hb] using ih

/-- Membership in the kept-alive subscription list: a subscription survives
the fan-out exactly when its own delivery succeeded. -/
theorem mem_push_alive (deliver : PushSub → Bool) (l : List PushSub) (s : PushSub) :
    s ∈ _push_alive deliver l ↔ s ∈ l ∧ deliver s = true := by
  induction l with
  | nil => simp [_push_alive]
  | cons x t ih =>
    cases hx : deliver x with
    | true =>
      simp only [_push_alive, hx, if_true]
      rw [List.mem_cons, List.mem_cons, ih]
      constructor
      · rintro (rfl | ⟨hm, hd⟩)
        · exact ⟨Or.inl rfl, hx⟩
        · exact ⟨Or.inr hm, hd⟩
      · rintro ⟨rfl | hm, hd⟩
        · exact Or.inl rfl
        · exact Or.inr ⟨hm, hd⟩
    | false =>
      simp only [_push_alive, hx]
      rw [if_neg (fun h => Bool.noConfusion h), ih, List.mem_cons]
      constructor
      · rintro ⟨hm, hd⟩
        exact ⟨Or.inr hm, hd⟩
      · rintro ⟨rfl | hm, hd⟩
        · rw [hx] at hd
          simp at hd
        · exact ⟨hm, hd⟩

/-! ## Claims -/

/-- C1: for every entity key processed by the dispatcher (the identical loop
body runs on snapshot upload and on a periodic tick), a first observation of
the key writes its status key into the notification cache and dispatches
nothing; a later observation with a different computed status key updates
the cache and dispaches exactly one status-change push for that key; an
observation with an unchanged status key dispatches nothing and leaves the
cache unchanged. -/
theorem c1_dispatcher_change_detection
    (manual : ManualMap) (now : DateTime) (cache : Cache) (m : Rec)
    (plate key : String)
    (hplate : plate = normalizePlateVal (rget m "license_plate" (.pstr "")))
    (hne : plate ≠ "")
    (hkey : key = (compute_driver_status manual now m "en").status_key) :
    (cache.lookup plate = none →
      dispatch_step manual now cache m = ⟨dictSet cache plate key, []⟩ ∧
      (dictSet cache plate key).lookup plate = some key) ∧
    (∀ old, cache.lookup plate = some old → old ≠ key →
      dispatch_step manual now cache m = ⟨dictSet cache plate key, [plate]⟩ ∧
      (dictSet cache plate key).lookup plate = some key) ∧
    (∀ old, cache.lookup plate = some old → old = key →
      dispatch_step manual now cache m = ⟨cache, []⟩) := by
  subst hplate
  subst hkey
  refine ⟨fun hnone => ?_, fun old hold hne2 => ?_, fun old hold heq => ?_⟩
  · constructor
    · simp only [dispatch_step, if_neg hne, hnone]
    · exact lookup_dictSet ..
  · constructor
    · simp only [dispatch_step, if_neg hne, hold]
      rw [if_pos (Ne.symm hne2)]
    · exact lookup_dictSet ..
  · simp only [dispatch_step, if_neg hne, hold]
    subst heq
    rw [if_neg (fun hk => hk rfl)]

/-- Witness for C1 at a concrete record, exercising all three cases. -/
theorem c1_witness :
    (([] : Cache).lookup "AB12" = none →
      dispatch_step [] ⟨2024,5,1,12,0,0⟩ [] [("license_plate", .pstr "ab-12"), ("scheduled_departure", .pstr "2024-05-01 14:00")]
        = ⟨dictSet [] "AB12" "LOADING_WAIT", []⟩ ∧
      (dictSet ([] : Cache) "AB12" "LOADING_WAIT").lookup "AB12" = some "LOADING_WAIT") ∧
    (∀ old, ([("AB12", "REPORT_OFFICE")] : Cache).lookup "AB12" = some old → old ≠ "LOADING_WAIT" →
      dispatch_step [] ⟨2024,5,1,12,0,0⟩ [("AB12", "REPORT_OFFICE")] [("license_plate", .pstr "ab-12"), ("scheduled_departure", .pstr "2024-05-01 14:00")]
        = ⟨dictSet [("AB12", "REPORT_OFFICE")] "AB12" "LOADING_WAIT", ["AB12"]⟩ ∧
      (dictSet ([("AB12", "REPORT_OFFICE")] : Cache) "AB12" "LOADING_WAIT").lookup "AB12" = some "LOADING_WAIT") ∧
    (∀ old, ([("AB12", "LOADING_WAIT")] : Cache).lookup "AB12" = some old → old = "LOADING_WAIT" →
      dispatch_step [] ⟨2024,5,1,12,0,0⟩ [("AB12", "LOADING_WAIT")] [("license_plate", .pstr "ab-12"), ("scheduled_departure", .pstr "2024-05-01 14:00")]
        = ⟨[("AB12", "LOADING_WAIT")], []⟩) :=
  ⟨(c1_dispatcher_change_detection [] ⟨2024,5,1,12,0,0⟩ [] _ "AB12" "LOADING_WAIT"
      (by decide) (by decide) (by decide)).1,
   (c1_dispatcher_change_detection [] ⟨2024,5,1,12,0,0⟩ [("AB12", "REPORT_OFFICE")] _ "AB12" "LOADING_WAIT"
      (by decide) (by decide) (by decide)).2.1,
   (c1_dispatcher_change_detection [] ⟨2024,5,1,12,0,0⟩ [("AB12", "LOADING_WAIT")] _ "AB12" "LOADING_WAIT"
      (by decide) (by decide) (by decide)).2.2⟩

/-- C2 counterexample: for a departed movement whose scheduled departure
parses, the claimed report time (scheduled minus 45 minutes, here
13:15) is not returned: the DEPARTED branch returns an empty report time. -/
theorem c2_counterexample :
    _parse_dt (.pstr "2024-05-01 14:00") = some ⟨2024, 5, 1, 14, 0, 0⟩ ∧
    compute_driver_status [] ⟨2024, 5, 1, 12, 0, 0⟩
        [("scheduled_departure", .pstr "2024-05-01 14:00"), ("departed", .pbool true)] "en"
      = ⟨"DEPARTED", "Drive safe, we wait you back!", ""⟩ := by
  decide

/-- C2 (amended): whenever the scheduled-departure field parses and neither
the manual-override branch nor the departed branch fires, the returned
report time is the scheduled time minus 45 minutes formatted in the detected
style of the input string, whichever of the remaining branches produced the
status; the manual-override and DEPARTED branches return an empty report
time instead. -/
theorem c2_report_time_non_override_branches
    (manual : ManualMap) (now : DateTime) (m : Rec) (lang : String) (d : DateTime)
    (hmsg : _manual_msg manual m = "")
    (hdep : _departed_flag m = false)
    (hsched : _parse_dt (rget m "scheduled_departure" (.pstr "")) = some d) :
    (compute_driver_status manual now m lang).report_in_office_at
      = _format_dt_like (d.subMinutes 45) (rget m "scheduled_departure" (.pstr "")) := by
  simp [compute_driver_status, hmsg, hdep, hsched]

/-- Witness for C2 (amended) at a concrete record in the LOCATION branch. -/
theorem c2_witness :
    (compute_driver_status [] ⟨2024, 5, 1, 12, 0, 0⟩
        [("scheduled_departure", .pstr "2024-05-01 14:00"), ("location", .pstr "Dock 5")] "en").report_in_office_at
      = _format_dt_like (DateTime.subMinutes ⟨2024, 5, 1, 14, 0, 0⟩ 45)
          (rget [("scheduled_departure", .pstr "2024-05-01 14:00"), ("location", .pstr "Dock 5")]
            "scheduled_departure" (.pstr "")) :=
  c2_report_time_non_override_branches [] ⟨2024, 5, 1, 12, 0, 0⟩
    [("scheduled_departure", .pstr "2024-05-01 14:00"), ("location", .pstr "Dock 5")] "en"
    ⟨2024, 5, 1, 14, 0, 0⟩ (by decide) (by decide) (by decide)

/-- A string extended beyond a prefix starts with that prefix. -/
theorem pyStartsWith_append (a b : String) : pyStartsWith (a ++ b) a = true := by
  simp [pyStartsWith, List.isPrefixOf_iff_prefix, List.prefix_append]

/-- C3 (amended): the engine is total (the embedding returns a status for
every record, manual store, time and language) and the returned status key
is either one of the five fixed keys or a `driver_message:`-prefixed content
fingerprint of the manual message; the fingerprints are not drawn from a
fixed closed set. -/
theorem c3_status_key_closed_or_fingerprint
    (manual : ManualMap) (now : DateTime) (m : Rec) (lang : String) :
    (compute_driver_status manual now m lang).status_key ∈
      (["DEPARTED", "LOCATION", "CLOSEDOOR_NO_LOCATION", "LOADING_WAIT", "REPORT_OFFICE"] : List String)
    ∨ pyStartsWith (compute_driver_status manual now m lang).status_key "driver_message:" = true := by
  by_cases hmsg : _manual_msg manual m = ""
  · left
    by_cases hdep : _departed_flag m = true
    · simp [compute_driver_status, hmsg, hdep]
    · have hm : ¬ (_manual_msg manual m ≠ "") := fun h => h hmsg
      simp only [compute_driver_status]
      rw [if_neg hm, if_neg hdep]
      split
      · split
        · simp
        · simp
      · split
        · simp
        · split
          · split
            · simp
            · simp
          · simp
  · right
    simp only [compute_driver_status]
    rw [if_pos hmsg]
    exact pyStartsWith_append "driver_message:" _

set_option maxRecDepth 100000 in
/-- C3 counterexample: a record with a manual override message yields a
fingerprint status key outside the fixed closed set, and different messages
yield different status keys, so no fixed closed set contains them all. -/
theorem c3_counterexample :
    (compute_driver_status [("AB12", "Call me")] ⟨2024, 5, 1, 12, 0, 0⟩
        [("license_plate", .pstr "AB12")] "en").status_key
      ∉ (["DEPARTED", "LOCATION", "CLOSEDOOR_NO_LOCATION", "LOADING_WAIT", "REPORT_OFFICE"] : List String) ∧
    (compute_driver_status [("AB12", "Call me")] ⟨2024, 5, 1, 12, 0, 0⟩
        [("license_plate", .pstr "AB12")] "en").status_key
      ≠ (compute_driver_status [("AB12", "Come back")] ⟨2024, 5, 1, 12, 0, 0⟩
        [("license_plate", .pstr "AB12")] "en").status_key := by
  decide

/-- C5: the worked threshold example: scheduled departure
`2024-05-01 14:00` with no location, close-door, departed or manual fields
is LOADING_WAIT at 12:00 and REPORT_OFFICE at 13:40, with report time
`2024-05-01 13:15` both times. -/
theorem c5_threshold_examples :
    compute_driver_status [] ⟨2024, 5, 1, 12, 0, 0⟩
        [("scheduled_departure", .pstr "2024-05-01 14:00")] "en"
      = ⟨"LOADING_WAIT", "Your trailer is being loaded, please wait!", "2024-05-01 13:15"⟩ ∧
    compute_driver_status [] ⟨2024, 5, 1, 13, 40, 0⟩
        [("scheduled_departure", .pstr "2024-05-01 14:00")] "en"
      = ⟨"REPORT_OFFICE", "Please report in the office!", "2024-05-01 13:15"⟩ := by
  decide

/-- C4: the guard chain is evaluated in fixed priority order, first match
wins: a record with both a manual override message and a departed indication
gets the manual-message status (fingerprint key, untranslated text); a
record without manual override or departed whose cleaned location is
non-placeholder gets status key LOCATION even when the close-door flag is
also set. -/
theorem c4_guard_priority
    (manual : ManualMap) (now : DateTime) (m : Rec) (lang : String) :
    (_manual_msg manual m ≠ "" → _departed_flag m = true →
      (compute_driver_status manual now m lang).status_key
          = "driver_message:" ++ pyTake (sha1Hex (utf8Bytes (_manual_msg manual m))) 12 ∧
      (compute_driver_status manual now m lang).status_text = _manual_msg manual m) ∧
    (_manual_msg manual m = "" → _departed_flag m = false →
      _has (.pstr (_clean_location_value (rget m "location" (.pstr "")))) = true →
      _has (rget m "close_door" (.pstr "")) = true →
      (compute_driver_status manual now m lang).status_key = "LOCATION") := by
  constructor
  · intro hmsg _
    simp only [compute_driver_status]
    rw [if_pos hmsg]
    exact ⟨rfl, rfl⟩
  · intro hmsg hdep hloc _
    have hm : ¬ (_manual_msg manual m ≠ "") := fun h => h hmsg
    have hd : ¬ (_departed_flag m = true) := by rw [hdep]; exact fun h => Bool.noConfusion h
    simp only [compute_driver_status]
    rw [if_neg hm, if_neg hd]
    simp only [hloc, if_true]
    split
    · rfl
    · rfl

/-- Witness for C4: the manual-plus-departed record and the
location-plus-close-door record, at concrete inputs. -/
theorem c4_witness :
    ((compute_driver_status [("AB12", "Call me")] ⟨2024, 5, 1, 12, 0, 0⟩
        [("license_plate", .pstr "AB12"), ("departed", .pbool true)] "en").status_key
        = "driver_message:" ++ pyTake (sha1Hex (utf8Bytes (_manual_msg [("AB12", "Call me")]
            [("license_plate", .pstr "AB12"), ("departed", .pbool true)]))) 12 ∧
      (compute_driver_status [("AB12", "Call me")] ⟨2024, 5, 1, 12, 0, 0⟩
        [("license_plate", .pstr "AB12"), ("departed", .pbool true)] "en").status_text
        = _manual_msg [("AB12", "Call me")] [("license_plate", .pstr "AB12"), ("departed", .pbool true)]) ∧
    (compute_driver_status [] ⟨2024, 5, 1, 12, 0, 0⟩
        [("location", .pstr "Dock 5"), ("close_door", .pstr "x")] "en").status_key = "LOCATION" :=
  ⟨(c4_guard_priority [("AB12", "Call me")] ⟨2024, 5, 1, 12, 0, 0⟩
      [("license_plate", .pstr "AB12"), ("departed", .pbool true)] "en").1
      (by decide) (by decide),
   (c4_guard_priority [] ⟨2024, 5, 1, 12, 0, 0⟩
      [("location", .pstr "Dock 5"), ("close_door", .pstr "x")] "en").2
      (by decide) (by decide) (by decide) (by decide)⟩

/-- C6: during a dispatch fan-out, a subscription of the entity key stays in
the registry exactly when its own delivery attempt succeeded: every failing
subscription is removed, every succeeding one is retained, independently of
its siblings. -/
theorem c6_prune_failed_keep_succeeded
    (deliver : PushSub → Bool) (reg : Registry) (plate : String)
    (subs : List PushSub) (s : PushSub)
    (hreg : reg.lookup plate = some subs) (hs : s ∈ subs) :
    (deliver s = true →
      s ∈ ((_push_to_plate_localized true deliver reg plate).lookup plate).getD []) ∧
    (deliver s = false →
      s ∉ ((_push_to_plate_localized true deliver reg plate).lookup plate).getD []) := by
  have hne : subs ≠ [] := by
    intro h
    rw [h] at hs
    exact absurd hs (List.not_mem_nil s)
  have hres : (_push_to_plate_localized true deliver reg plate).lookup plate
      = some (_push_alive deliver subs) := by
    simp only [_push_to_plate_localized, hreg, Option.getD_some]
    rw [if_neg (by simp), if_neg hne]
    exact lookup_dictSet ..
  rw [hres]
  constructor
  · intro hd
    exact Option.getD_some ▸ (mem_push_alive deliver subs s).mpr ⟨hs, hd⟩
  · intro hd hmem
    have := (mem_push_alive deliver subs s).mp (by simpa using hmem)
    rw [hd] at this
    exact Bool.noConfusion this.2

/-- Witness for C6: a dead and a live subscription on the same plate. -/
theorem c6_witness :
    ((fun s => s.endpoint ≠ "dead" : PushSub → Bool) ⟨"live", "de"⟩ = true →
      (⟨"live", "de"⟩ : PushSub) ∈
        ((_push_to_plate_localized true (fun s => s.endpoint ≠ "dead")
          [("AB12", [⟨"dead", "en"⟩, ⟨"live", "de"⟩])] "AB12").lookup "AB12").getD []) ∧
    ((fun s => s.endpoint ≠ "dead" : PushSub → Bool) ⟨"dead", "en"⟩ = false →
      (⟨"dead", "en"⟩ : PushSub) ∉
        ((_push_to_plate_localized true (fun s => s.endpoint ≠ "dead")
          [("AB12", [⟨"dead", "en"⟩, ⟨"live", "de"⟩])] "AB12").lookup "AB12").getD []) :=
  ⟨(c6_prune_failed_keep_succeeded (fun s => s.endpoint ≠ "dead")
      [("AB12", [⟨"dead", "en"⟩, ⟨"live", "de"⟩])] "AB12"
      [⟨"dead", "en"⟩, ⟨"live", "de"⟩] ⟨"live", "de"⟩ (by decide) (by decide)).1,
   (c6_prune_failed_keep_succeeded (fun s => s.endpoint ≠ "dead")
      [("AB12", [⟨"dead", "en"⟩, ⟨"live", "de"⟩])] "AB12"
      [⟨"dead", "en"⟩, ⟨"live", "de"⟩] ⟨"dead", "en"⟩ (by decide) (by decide)).2⟩

/-- Uppercasing distributes over string append. -/
theorem pyUpper_append (a b : String) : pyUpper (a ++ b) = pyUpper a ++ pyUpper b := by
  apply String.ext
  simp only [pyUpper, String.data_append, List.map_append]

/-- Dropping the length of the front piece of an append leaves the back
piece. -/
theorem pyDropLeft_append (a b : String) : pyDropLeft (a ++ b) a.length = b := by
  apply String.ext
  show ((a ++ b).data).drop a.length = b.data
  rw [String.data_append]
  exact List.drop_left a.data b.data

/-- C7: in destination resolution, when the code is found only in the
geo-oriented source and that source city begins with the (uppercase) code
followed by a space, the resolved city is the remainder with the prefix
stripped; when both sources are found and the locality source provides a
country, that country is used over the geo-source value.  Concrete runs of
`resolve_destination` exhibit both behaviors end to end. -/
theorem c7_city_prefix_strip_and_country_precedence :
    (∀ (r : LocRow) (code rest : String),
      code ≠ "" → pyUpper code = code →
      pyStrip r.city = (code ++ " ") ++ rest →
      (_city_country code (some r) none).1 = pyStrip rest) ∧
    (∀ (r : LocRow) (dr : DlRow) (code : String),
      pyStrip dr.country ≠ "" →
      (_city_country code (some r) (some dr)).2 = pyStrip dr.country) ∧
    resolve_destination [("ABC", ⟨"ABC Warehouse1", "NL", none, none⟩)] []
        [("dest", .pstr "ABC")]
      = ("Warehouse1, NL (ABC)", none, none) ∧
    resolve_destination [("ABC", ⟨"City1", "XX", none, none⟩)]
        [("ABC", ⟨"Cityclean", "NL"⟩)] [("dest", .pstr "ABC")]
      = ("Cityclean, NL (ABC)", none, none) := by
  refine ⟨?_, ?_, by decide, by decide⟩
  · intro r code rest hne hup hcity
    have hupper : pyUpper (pyStrip r.city) = (code ++ " ") ++ pyUpper rest := by
      rw [hcity, pyUpper_append, pyUpper_append, hup]
      have hsp : pyUpper " " = " " := by decide
      rw [hsp]
    have hpref : pyStartsWith (pyUpper (pyStrip r.city)) (code ++ " ") = true := by
      rw [hupper]
      exact pyStartsWith_append (code ++ " ") (pyUpper rest)
    have hlen : (code ++ " ").length = code.length + 1 := by
      show ((code ++ " ").data).length = code.data.length + 1
      rw [String.data_append]
      simp
    have hdrop : pyDropLeft (pyStrip r.city) (code.length + 1) = rest := by
      rw [hcity, ← hlen]
      exact pyDropLeft_append (code ++ " ") rest
    simp only [_city_country]
    rw [if_pos trivial, if_pos ⟨hne, hpref⟩, hdrop]
  · intro r dr code hc
    simp only [_city_country]
    rw [if_neg hc]

/-- Witness for C7 at the Warehouse example of the specification. -/
theorem c7_witness :
    (_city_country "ABC" (some ⟨"ABC Warehouse1", "NL", none, none⟩) none).1
        = pyStrip "Warehouse1" ∧
    (_city_country "ABC" (some ⟨"City1", "XX", none, none⟩)
        (some ⟨"Cityclean", "NL"⟩)).2 = pyStrip "NL" :=
  ⟨c7_city_prefix_strip_and_country_precedence.1 ⟨"ABC Warehouse1", "NL", none, none⟩
      "ABC" "Warehouse1" (by decide) (by decide) (by decide),
   c7_city_prefix_strip_and_country_precedence.2.1 ⟨"City1", "XX", none, none⟩
      ⟨"Cityclean", "NL"⟩ "ABC" (by decide)⟩

/-- C8: when the primary routing provider yields no points — in particular
whenever its credential is absent — and the secondary provider also yields
no points, the returned polyline is exactly the two-point line from origin
to destination with provenance key DIRECT. -/
theorem c8_route_fallback_direct
    (apiKey : String) (r1 r2 : Option (List (ℚ × ℚ)))
    (olat olon dlat dlon : ℚ) :
    ((r1 = none ∨ r1 = some []) → (r2 = none ∨ r2 = some []) →
      build_route_points apiKey r1 r2 olat olon dlat dlon
        = ([[olat, olon], [dlat, dlon]], "DIRECT")) ∧
    (pyStrip apiKey = "" →
      _fetch_ors_route_coords apiKey r1 dlat dlon = none ∧
      ((r2 = none ∨ r2 = some []) →
        build_route_points apiKey r1 r2 olat olon dlat dlon
          = ([[olat, olon], [dlat, dlon]], "DIRECT"))) := by
  have hors : ∀ (h1 : r1 = none ∨ r1 = some []),
      _fetch_ors_route_coords apiKey r1 dlat dlon = none := by
    rintro (rfl | rfl) <;> simp [_fetch_ors_route_coords]
  have hosrm : ∀ (h2 : r2 = none ∨ r2 = some []),
      _fetch_osrm_route_coords r2 dlat dlon = none := by
    rintro (rfl | rfl) <;> rfl
  have hmain : ∀ (h1 : _fetch_ors_route_coords apiKey r1 dlat dlon = none)
      (h2 : r2 = none ∨ r2 = some []),
      build_route_points apiKey r1 r2 olat olon dlat dlon
        = ([[olat, olon], [dlat, dlon]], "DIRECT") := by
    intro h1 h2
    simp only [build_route_points, h1, hosrm h2]
  refine ⟨fun h1 h2 => hmain (hors h1) h2, fun hkey => ?_⟩
  have h1 : _fetch_ors_route_coords apiKey r1 dlat dlon = none := by
    simp only [_fetch_ors_route_coords, hkey]
    rw [if_pos (by decide)]
  exact ⟨h1, fun h2 => hmain h1 h2⟩

/-- Witness for C8: no credential, secondary also failing. -/
theorem c8_witness :
    build_route_points "" none (some []) 1 2 3 4 = ([[1, 2], [3, 4]], "DIRECT") ∧
    _fetch_ors_route_coords "" (some [(9, 9)]) 3 4 = none :=
  ⟨(c8_route_fallback_direct "" none (some []) 1 2 3 4).1
      (Or.inl rfl) (Or.inr rfl),
   ((c8_route_fallback_direct "" (some [(9, 9)]) none 3 4 3 4).2 (by decide)).1⟩

/-- C9: the geofence gate checks staleness before range with distinguishable
reasons: a timestamp older than the fixed bound is rejected as stale (even
when the haversine distance from the hub is inside the radius, and for any
math oracle), and a fresh request whose haversine distance exceeds the fixed
radius is rejected as out of range. -/
theorem c9_geofence_staleness_before_range
    (o : MathOracle) (now ts : Int) (lat lon : ℚ) :
    (MAX_LOCATION_AGE_SECONDS < (now - ts).natAbs →
      haversine_km o lat lon HUB_LAT HUB_LON ≤ GEOFENCE_RADIUS_KM →
      geofence_check o now lat lon ts = some .stale) ∧
    ((now - ts).natAbs ≤ MAX_LOCATION_AGE_SECONDS →
      GEOFENCE_RADIUS_KM < haversine_km o lat lon HUB_LAT HUB_LON →
      geofence_check o now lat lon ts = some .out_of_range) ∧
    (GeofenceReject.stale ≠ GeofenceReject.out_of_range ∧
      GeofenceReject.code .stale = 401 ∧ GeofenceReject.code .out_of_range = 403) := by
  refine ⟨fun hstale _ => ?_, fun hfresh hrange => ?_, by decide, rfl, rfl⟩
  · simp only [geofence_check]
    rw [if_pos hstale]
  · simp only [geofence_check]
    rw [if_neg (Nat.not_lt.mpr hfresh), if_pos hrange]

/-- Witness for C9: a stale in-radius request under the zero oracle and a
fresh out-of-range request under an oracle computing a large distance. -/
theorem c9_witness :
    geofence_check ⟨fun _ => 0, fun _ => 0, fun _ _ => 0, fun _ => 0, fun _ => 0⟩
      1000 51 6 0 = some .stale ∧
    geofence_check ⟨fun _ => 0, fun _ => 0, fun _ _ => 1, fun _ => 0, fun _ => 0⟩
      100 51 6 0 = some .out_of_range :=
  ⟨(c9_geofence_staleness_before_range
      ⟨fun _ => 0, fun _ => 0, fun _ _ => 0, fun _ => 0, fun _ => 0⟩ 1000 0 51 6).1
      (by decide) (by norm_num [haversine_km, GEOFENCE_RADIUS_KM]),
   (c9_geofence_staleness_before_range
      ⟨fun _ => 0, fun _ => 0, fun _ _ => 1, fun _ => 0, fun _ => 0⟩ 100 0 51 6).2.1
      (by decide) (by norm_num [haversine_km, GEOFENCE_RADIUS_KM])⟩

/-- C10 (implicit): in destination resolution, coordinates supplied inside
the movement record take precedence over the Location Directory: a
record-supplied coordinate is returned unchanged whatever the directory
holds, and the geo-oriented row is consulted only for whichever of lat/lon
the record leaves missing. -/
theorem c10_record_coordinates_precedence
    (locByCode : List (String × LocRow)) (dlByCode : List (String × DlRow))
    (rec : Rec) (v : ℚ) (row : LocRow) :
    (_safe_float (_first_nonempty rec destLatAliases) = some v →
      (resolve_destination locByCode dlByCode rec).2.1 = some v) ∧
    (_safe_float (_first_nonempty rec destLonAliases) = some v →
      (resolve_destination locByCode dlByCode rec).2.2 = some v) ∧
    (∀ code_n,
      code_n = _norm_code (_extract_code_from_text (_first_nonempty rec destCodeAliases)) →
      code_n ≠ "" → locByCode.lookup code_n = some row →
      (_safe_float (_first_nonempty rec destLatAliases) = none →
        (resolve_destination locByCode dlByCode rec).2.1 = row.lat) ∧
      (_safe_float (_first_nonempty rec destLonAliases) = none →
        (resolve_destination locByCode dlByCode rec).2.2 = row.lon)) := by
  refine ⟨fun hlat => ?_, fun hlon => ?_,
    fun code_n hdef hcode hrow => ⟨fun hlat => ?_, fun hlon => ?_⟩⟩
  · simp only [resolve_destination, hlat]
    split <;> rfl
  · simp only [resolve_destination, hlon]
    split <;> rfl
  · subst hdef
    simp only [resolve_destination, hlat]
    rw [if_neg hcode, hrow]
  · subst hdef
    simp only [resolve_destination, hlon]
    rw [if_neg hcode, hrow]

/-- Witness for C10: a record-supplied latitude wins over a conflicting
directory value; the longitude the record leaves missing comes from the
directory row. -/
theorem c10_witness :
    (resolve_destination [("ABC", ⟨"City1", "XX", some 1, some 2⟩)] []
        [("dest", .pstr "ABC"), ("dest_lat", .pstr "52.5")]).2.1 = some (mkRat 105 2) ∧
    (resolve_destination [("ABC", ⟨"City1", "XX", some 1, some 2⟩)] []
        [("dest", .pstr "ABC"), ("dest_lat", .pstr "52.5")]).2.2
      = (⟨"City1", "XX", some 1, some 2⟩ : LocRow).lon :=
  ⟨(c10_record_coordinates_precedence [("ABC", ⟨"City1", "XX", some 1, some 2⟩)] []
      [("dest", .pstr "ABC"), ("dest_lat", .pstr "52.5")] (mkRat 105 2)
      ⟨"City1", "XX", some 1, some 2⟩).1 (by decide),
   ((c10_record_coordinates_precedence [("ABC", ⟨"City1", "XX", some 1, some 2⟩)] []
      [("dest", .pstr "ABC"), ("dest_lat", .pstr "52.5")] (mkRat 105 2)
      ⟨"City1", "XX", some 1, some 2⟩).2.2 "ABC" (by decide) (by decide) (by decide)).2 (by decide)⟩
